import Mathlib

set_option linter.unusedVariables false
set_option linter.unnecessarySeqFocus false

/-!
Shallow embedding of the Lutrii recurring-billing program
(`programs/lutrii-recurring/src/lib.rs`) and the Lutrii merchant registry
(`programs/lutrii-merchant-registry/src/lib.rs`).

Machine integers are modelled as `Nat` (u64/u32/u16) and `Int` (i64/i32),
with the source's `checked_*` / `saturating_*` operations made explicit
against the corresponding type bounds.  Fallible instruction handlers
return `Except ErrorCode _`; an `Except.error` result models the host
runtime aborting the whole transaction, so no account write survives
(Anchor serializes accounts back only when the handler returns `Ok`).
-/

namespace Lutrii

/-- 2^64, the modulus of Rust's `u64`. -/
def U64_MOD : Nat := 18446744073709551616

/-- 2^32, the modulus of Rust's `u32`. -/
def U32_MOD : Nat := 4294967296

/-- 2^128, the modulus of Rust's `u128`. -/
def U128_MOD : Nat := 340282366920938463463374607431768211456

/-- Smallest value of Rust's `i32`. -/
def I32_MIN : Int := -2147483648

/-- Largest value of Rust's `i32`. -/
def I32_MAX : Int := 2147483647

-- Constants from programs/lutrii-recurring/src/lib.rs
def SECONDS_PER_DAY : Int := 86400
def BASIS_POINTS_DIVISOR : Nat := 10000
def MIN_FREQUENCY_SECONDS : Int := 3600
def MAX_FREQUENCY_SECONDS : Int := 31536000
def MAX_MERCHANT_NAME_LEN : Nat := 32
def MAX_FEE_BASIS_POINTS : Nat := 500
def MIN_FEE_BASIS_POINTS : Nat := 1

-- Constants from programs/lutrii-merchant-registry/src/lib.rs
def MAX_BUSINESS_NAME_LEN : Nat := 64
def MAX_WEBHOOK_URL_LEN : Nat := 128
def MAX_CATEGORY_LEN : Nat := 32
def MAX_REVIEW_COMMENT_LEN : Nat := 256
def PREMIUM_BADGE_DURATION_DAYS : Int := 30

/-- `u64::checked_add`. -/
def checked_add_u64 (a b : Nat) : Option Nat :=
  if a + b < U64_MOD then some (a + b) else none

/-- `u32::checked_add`. -/
def checked_add_u32 (a b : Nat) : Option Nat :=
  if a + b < U32_MOD then some (a + b) else none

/-- `i32::checked_add`. -/
def checked_add_i32 (a b : Int) : Option Int :=
  if I32_MIN ≤ a + b ∧ a + b ≤ I32_MAX then some (a + b) else none

/-- `i32::saturating_sub` (for the subtrahends used here, only the lower
bound can saturate, but both clamps are modelled). -/
def saturating_sub_i32 (a b : Int) : Int :=
  if a - b < I32_MIN then I32_MIN
  else if a - b > I32_MAX then I32_MAX
  else a - b

/-- `u64::abs_diff`. -/
def abs_diff_u64 (a b : Nat) : Nat := max a b - min a b

/-- Error codes of both programs (`ErrorCode` enums in the two `lib.rs`
files), merged into one type.  `AccountAlreadyInUse` is not a program
error code: it models the Solana runtime failure raised by Anchor's
`init` when the PDA being created already exists (used by `SubmitReview`
for the one-review-per-(merchant, reviewer) rule). -/
inductive ErrorCode where
  | SystemPaused
  | SubscriptionInactive
  | SubscriptionPaused
  | PaymentNotDue
  | ExceedsTransactionCap
  | ExceedsLifetimeCap
  | VelocityExceeded
  | PriceVarianceExceeded
  | AlreadyPaused
  | NotPaused
  | InsufficientAmount
  | Overflow
  | FrequencyTooShort
  | FrequencyTooLong
  | InvalidMerchantName
  | AmountTooLow
  | FeeTooLow
  | FeeTooHigh
  | SubscriptionStillActive
  | InvalidBusinessName
  | InvalidWebhookUrl
  | InvalidCategory
  | MustBeVerifiedFirst
  | InvalidRating
  | InvalidComment
  | CannotManuallySetCommunityTier
  | NoActiveSubscription
  | InsufficientPaymentHistory
  | InsufficientTotalPaid
  | SubscriptionTooNew
  | InvalidSuspensionReason
  | AccountAlreadyInUse
  deriving DecidableEq, Repr

/-- `PlatformState` account (pubkeys and bump omitted: no claim mentions
them). -/
structure PlatformState where
  daily_volume_limit : Nat
  total_volume_24h : Nat
  last_volume_reset : Int
  failed_tx_count : Nat
  emergency_pause : Bool
  fee_basis_points : Nat
  min_fee : Nat
  max_fee : Nat
  total_subscriptions : Nat
  total_transactions : Nat
  deriving DecidableEq, Repr

/-- `Subscription` account (token-account pubkeys and bump omitted). -/
structure Subscription where
  user : Nat
  merchant : Nat
  amount : Nat
  original_amount : Nat
  frequency_seconds : Int
  last_payment : Int
  next_payment : Int
  total_paid : Nat
  payment_count : Nat
  is_active : Bool
  is_paused : Bool
  max_per_transaction : Nat
  lifetime_cap : Nat
  merchant_name : String
  created_at : Int
  deriving DecidableEq, Repr

/-- `calculate_fee` helper: widened `u128` product, divide by 10000
(`checked_div` with the nonzero constant divisor never fails), narrow
back to `u64`, then clamp via `.max(min_fee).min(max_fee)`. -/
def calculate_fee (amount basis_points min_fee max_fee : Nat) :
    Except ErrorCode Nat :=
  if amount * basis_points ≥ U128_MOD then .error .Overflow
  else if amount * basis_points / BASIS_POINTS_DIVISOR ≥ U64_MOD then
    .error .Overflow
  else
    .ok (min (max (amount * basis_points / BASIS_POINTS_DIVISOR) min_fee)
      max_fee)

/-- `create_subscription` handler.  The `approve_checked` CPI to the token
program (delegation of `lifetime_cap`) is an external collaborator call,
assumed to succeed. -/
def create_subscription (platform : PlatformState) (user merchant : Nat)
    (amount : Nat) (frequency_seconds : Int)
    (max_per_transaction lifetime_cap : Nat) (merchant_name : String)
    (now : Int) : Except ErrorCode (PlatformState × Subscription) :=
  if platform.emergency_pause then .error .SystemPaused
  else if frequency_seconds < MIN_FREQUENCY_SECONDS then .error .FrequencyTooShort
  else if frequency_seconds > MAX_FREQUENCY_SECONDS then .error .FrequencyTooLong
  else if merchant_name.utf8ByteSize = 0 ∨ merchant_name.utf8ByteSize > MAX_MERCHANT_NAME_LEN then
    .error .InvalidMerchantName
  else if amount = 0 then .error .AmountTooLow
  else if amount > max_per_transaction then .error .ExceedsTransactionCap
  else if amount > lifetime_cap then .error .ExceedsLifetimeCap
  else
    match checked_add_u64 platform.total_subscriptions 1 with
    | none => .error .Overflow
    | some n =>
      .ok ({ platform with total_subscriptions := n },
           { user := user
             merchant := merchant
             amount := amount
             original_amount := amount
             frequency_seconds := frequency_seconds
             last_payment := 0
             next_payment := now + frequency_seconds
             total_paid := 0
             payment_count := 0
             is_active := true
             is_paused := false
             max_per_transaction := max_per_transaction
             lifetime_cap := lifetime_cap
             merchant_name := merchant_name
             created_at := now })

/-- A token transfer performed by `execute_payment` via the subscription
PDA's delegated authority: `to_merchant = true` for the merchant payout,
`false` for the platform-fee transfer. -/
structure Transfer where
  to_merchant : Bool
  amount : Nat
  deriving DecidableEq, Repr

/-- In-memory effect of the `execute_payment` handler body: the account
data as mutated so far, the CPI transfers issued so far, and the error it
returned, if any.  `error = some e` means the handler returned `Err(e)`
after having performed exactly these in-memory writes and transfers. -/
structure ExecTrace where
  platform : PlatformState
  subscription : Subscription
  transfers : List Transfer
  error : Option ErrorCode
  deriving DecidableEq, Repr

/-- The 24-hour rolling-volume auto-reset at the top of `execute_payment`. -/
def reset_daily_volume (p : PlatformState) (now : Int) : PlatformState :=
  if now ≥ p.last_volume_reset + SECONDS_PER_DAY then
    { p with total_volume_24h := 0, last_volume_reset := now }
  else p

/-- Body of `execute_payment` after the volume auto-reset, mirroring the
source's statement order (checks, fee, transfers, subscription writes,
platform writes). -/
def execute_payment_checks (p : PlatformState) (s : Subscription) (now : Int) :
    ExecTrace :=
  if p.emergency_pause then ⟨p, s, [], some .SystemPaused⟩
  else if s.is_active = false then ⟨p, s, [], some .SubscriptionInactive⟩
  else if s.is_paused then ⟨p, s, [], some .SubscriptionPaused⟩
  else if now < s.next_payment then ⟨p, s, [], some .PaymentNotDue⟩
  else
    match checked_add_u64 s.total_paid s.amount with
    | none => ⟨p, s, [], some .Overflow⟩
    | some new_total =>
      if new_total > s.lifetime_cap then ⟨p, s, [], some .ExceedsLifetimeCap⟩
      else
        match checked_add_u64 p.total_volume_24h s.amount with
        | none => ⟨p, s, [], some .Overflow⟩
        | some new_volume =>
          if new_volume > p.daily_volume_limit then ⟨p, s, [], some .VelocityExceeded⟩
          else if s.payment_count > 0 ∧
              abs_diff_u64 s.amount s.original_amount > s.original_amount / 10 then
            ⟨p, s, [], some .PriceVarianceExceeded⟩
          else
            match calculate_fee s.amount p.fee_basis_points p.min_fee p.max_fee with
            | .error e => ⟨p, s, [], some e⟩
            | .ok fee =>
              if s.amount < fee then ⟨p, s, [], some .InsufficientAmount⟩
              else
                let transfers :=
                  Transfer.mk true (s.amount - fee) ::
                    (if fee > 0 then [Transfer.mk false fee] else [])
                let s1 := { s with
                  last_payment := now
                  next_payment := now + s.frequency_seconds
                  total_paid := new_total }
                match checked_add_u32 s.payment_count 1 with
                | none => ⟨p, s1, transfers, some .Overflow⟩
                | some pc =>
                  let s2 := { s1 with payment_count := pc }
                  let p1 := { p with total_volume_24h := new_volume }
                  match checked_add_u64 p.total_transactions 1 with
                  | none => ⟨p1, s2, transfers, some .Overflow⟩
                  | some tt =>
                    ⟨{ p1 with total_transactions := tt }, s2, transfers, none⟩

/-- Raw in-memory trace of `execute_payment`: the rolling-volume window
reset runs first, before any check. -/
def execute_payment_raw (platform : PlatformState) (s : Subscription)
    (now : Int) : ExecTrace :=
  execute_payment_checks (reset_daily_volume platform now) s now

/-- Committed semantics of `execute_payment`: when the handler returns
`Err`, the Solana runtime aborts the transaction, reverting every account
write (including the volume-window reset) and every token transfer, so
nothing of the raw trace survives; on `Ok` the traced state and transfers
commit. -/
def execute_payment (platform : PlatformState) (s : Subscription)
    (now : Int) :
    Except ErrorCode (PlatformState × Subscription × List Transfer) :=
  match (execute_payment_raw platform s now).error with
  | some e => .error e
  | none =>
    .ok ((execute_payment_raw platform s now).platform,
         (execute_payment_raw platform s now).subscription,
         (execute_payment_raw platform s now).transfers)

/-- Observable post-state of a call to `execute_payment`: on error the
caller's accounts are untouched and no transfer happened. -/
def execute_payment_result (platform : PlatformState) (s : Subscription)
    (now : Int) : PlatformState × Subscription × List Transfer :=
  match execute_payment platform s now with
  | .error _ => (platform, s, [])
  | .ok r => r

/-- `pause_subscription` handler. -/
def pause_subscription (s : Subscription) : Except ErrorCode Subscription :=
  if s.is_active = false then .error .SubscriptionInactive
  else if s.is_paused then .error .AlreadyPaused
  else .ok { s with is_paused := true }

/-- `resume_subscription` handler. -/
def resume_subscription (s : Subscription) (now : Int) :
    Except ErrorCode Subscription :=
  if s.is_active = false then .error .SubscriptionInactive
  else if s.is_paused = false then .error .NotPaused
  else .ok { s with is_paused := false,
                    next_payment := now + s.frequency_seconds }

/-- `cancel_subscription` handler.  The `revoke` CPI is an external
collaborator call, assumed to succeed; the platform subscription counter
is decremented with `u64::saturating_sub` (which `Nat` subtraction models
exactly). -/
def cancel_subscription (p : PlatformState) (s : Subscription) :
    Except ErrorCode (PlatformState × Subscription) :=
  if s.is_active = false then .error .SubscriptionInactive
  else .ok ({ p with total_subscriptions := p.total_subscriptions - 1 },
            { s with is_active := false, is_paused := false })

/-- `close_subscription` handler (account reclamation itself is done by
the runtime's `close` constraint). -/
def close_subscription (s : Subscription) : Except ErrorCode Unit :=
  if s.is_active then .error .SubscriptionStillActive else .ok ()

/-- `update_limits` handler.  The `approve_checked` CPI re-issuing the
delegation when the cap is raised is external and assumed to succeed. -/
def update_limits (s : Subscription)
    (new_max_per_transaction new_lifetime_cap : Option Nat) :
    Except ErrorCode Subscription :=
  if s.is_active = false then .error .SubscriptionInactive
  else
    match new_max_per_transaction with
    | none =>
      match new_lifetime_cap with
      | none => .ok s
      | some lifetime =>
        if s.total_paid > lifetime then .error .ExceedsLifetimeCap
        else .ok { s with lifetime_cap := lifetime }
    | some max_tx =>
      if s.amount > max_tx then .error .ExceedsTransactionCap
      else
        match new_lifetime_cap with
        | none => .ok { s with max_per_transaction := max_tx }
        | some lifetime =>
          if s.total_paid > lifetime then .error .ExceedsLifetimeCap
          else .ok { s with max_per_transaction := max_tx,
                            lifetime_cap := lifetime }

/-- `emergency_pause` handler (admin-gated by the account constraints). -/
def emergency_pause (p : PlatformState) : PlatformState :=
  { p with emergency_pause := true }

/-- `emergency_unpause` handler. -/
def emergency_unpause (p : PlatformState) (now : Int) : PlatformState :=
  { p with emergency_pause := false
           total_volume_24h := 0
           last_volume_reset := now
           failed_tx_count := 0 }

/-- `VerificationTier` enum of the merchant registry. -/
inductive VerificationTier where
  | Unverified
  | Verified
  | Community
  | Suspended
  deriving DecidableEq, Repr

/-- `RegistryState` account (authority pubkey and bump omitted). -/
structure RegistryState where
  total_merchants : Nat
  verified_merchants : Nat
  premium_badge_price : Nat
  deriving DecidableEq, Repr

/-- `Merchant` account (bump omitted; `owner` pubkey as `Nat`). -/
structure Merchant where
  owner : Nat
  business_name : String
  webhook_url : String
  category : String
  verification_tier : VerificationTier
  community_score : Int
  total_transactions : Nat
  total_volume : Nat
  failed_transactions : Nat
  premium_badge_active : Bool
  premium_badge_expires : Int
  created_at : Int
  last_updated : Int
  deriving DecidableEq, Repr

/-- `Review` account (bump omitted; the PDA seeds are the
(merchant, reviewer) pair). -/
structure Review where
  merchant_owner : Nat
  reviewer : Nat
  rating : Nat
  comment : String
  timestamp : Int
  deriving DecidableEq, Repr

/-- `apply_for_verification` handler. -/
def apply_for_verification (r : RegistryState) (owner : Nat)
    (business_name webhook_url category : String) (now : Int) :
    Except ErrorCode (RegistryState × Merchant) :=
  if business_name.utf8ByteSize = 0 ∨ business_name.utf8ByteSize > MAX_BUSINESS_NAME_LEN then
    .error .InvalidBusinessName
  else if webhook_url.utf8ByteSize = 0 ∨ webhook_url.utf8ByteSize > MAX_WEBHOOK_URL_LEN then
    .error .InvalidWebhookUrl
  else if category.utf8ByteSize = 0 ∨ category.utf8ByteSize > MAX_CATEGORY_LEN then
    .error .InvalidCategory
  else
    match checked_add_u64 r.total_merchants 1 with
    | none => .error .Overflow
    | some n =>
      .ok ({ r with total_merchants := n },
           { owner := owner
             business_name := business_name
             webhook_url := webhook_url
             category := category
             verification_tier := .Unverified
             community_score := 0
             total_transactions := 0
             total_volume := 0
             failed_transactions := 0
             premium_badge_active := false
             premium_badge_expires := 0
             created_at := now
             last_updated := now })

/-- `approve_merchant` handler (admin-gated by the account constraints). -/
def approve_merchant (r : RegistryState) (m : Merchant)
    (tier : VerificationTier) (now : Int) :
    Except ErrorCode (RegistryState × Merchant) :=
  if tier = .Community then .error .CannotManuallySetCommunityTier
  else
    let m1 := { m with verification_tier := tier, last_updated := now }
    if m.verification_tier = .Unverified ∧ tier = .Verified then
      match checked_add_u64 r.verified_merchants 1 with
      | none => .error .Overflow
      | some n => .ok ({ r with verified_merchants := n }, m1)
    else .ok (r, m1)

/-- `subscribe_premium_badge` handler; the badge-fee `transfer_checked`
CPI is external and assumed to succeed. -/
def subscribe_premium_badge (r : RegistryState) (m : Merchant) (now : Int) :
    Except ErrorCode Merchant :=
  if m.verification_tier = .Verified ∨ m.verification_tier = .Community then
    .ok { m with premium_badge_active := true
                 premium_badge_expires := now + PREMIUM_BADGE_DURATION_DAYS * SECONDS_PER_DAY
                 last_updated := now }
  else .error .MustBeVerifiedFirst

/-- Lazy premium-badge expiry at the top of `record_transaction`. -/
def record_transaction_badge (m : Merchant) (now : Int) : Merchant :=
  if m.premium_badge_active ∧ now ≥ m.premium_badge_expires
  then { m with premium_badge_active := false } else m

/-- Counter/score update of `record_transaction`: checked adds on
success, checked failure counter and saturating score decrease on
failure. -/
def record_transaction_update (m0 : Merchant) (amount : Nat)
    (success : Bool) : Except ErrorCode Merchant :=
  if success then
    match checked_add_u64 m0.total_transactions 1 with
    | none => .error .Overflow
    | some tt =>
      match checked_add_u64 m0.total_volume amount with
      | none => .error .Overflow
      | some tv =>
        match checked_add_i32 m0.community_score 10 with
        | none => .error .Overflow
        | some cs =>
          .ok { m0 with total_transactions := tt
                        total_volume := tv
                        community_score := cs }
  else
    match checked_add_u32 m0.failed_transactions 1 with
    | none => .error .Overflow
    | some ft =>
      .ok { m0 with failed_transactions := ft
                    community_score :=
                      saturating_sub_i32 m0.community_score 25 }

/-- Auto-promotion to `Community` inside `record_transaction`. -/
def promote_check (m : Merchant) : Merchant :=
  if m.verification_tier = .Verified ∧ m.total_transactions ≥ 100 ∧
     m.community_score ≥ 1000 ∧ m.failed_transactions < 5
  then { m with verification_tier := .Community } else m

/-- Auto-suspension inside `record_transaction`. -/
def suspend_check (m : Merchant) : Merchant :=
  if m.community_score < -100
  then { m with verification_tier := .Suspended,
                premium_badge_active := false }
  else m

/-- `record_transaction` handler body: lazy badge expiry, counter/score
update, `last_updated`, then the promotion check followed by the
suspension check.  The instruction-introspection check at the top of the
handler (the call must come via CPI from the lutrii-recurring program)
inspects the transaction context, not the accounts; this definition
models the state transition the handler performs once that check has
passed. -/
def record_transaction (m : Merchant) (amount : Nat) (success : Bool)
    (now : Int) : Except ErrorCode Merchant :=
  match record_transaction_update (record_transaction_badge m now) amount
      success with
  | .error e => .error e
  | .ok m1 =>
    .ok (suspend_check (promote_check { m1 with last_updated := now }))

/-- Score delta by star rating in `submit_review`. -/
def review_score_change (rating : Nat) : Int :=
  if rating = 5 then 20
  else if rating = 4 then 10
  else if rating = 3 then 0
  else if rating = 2 then -15
  else if rating = 1 then -30
  else 0

/-- `submit_review`.  `review_exists` models Anchor's `init` on the PDA
seeded by the (merchant, reviewer) pair: if that account already exists,
account resolution fails before the handler runs, so a second review by
the same reviewer for the same merchant is rejected, never overwritten.
The `sub` argument is the reviewer's subscription account for this
merchant (enforced by the PDA seeds); its `is_active`,
`payment_count ≥ 3` and `total_paid ≥ 1_000_000` constraints run during
account resolution, before the handler's rating/comment/age checks. -/
def submit_review (review_exists : Bool) (sub : Subscription) (m : Merchant)
    (reviewer : Nat) (rating : Nat) (comment : String) (now : Int) :
    Except ErrorCode (Review × Merchant) :=
  if review_exists then .error .AccountAlreadyInUse
  else if sub.is_active = false then .error .NoActiveSubscription
  else if sub.payment_count < 3 then .error .InsufficientPaymentHistory
  else if sub.total_paid < 1000000 then .error .InsufficientTotalPaid
  else if rating < 1 ∨ rating > 5 then .error .InvalidRating
  else if comment.utf8ByteSize = 0 ∨ comment.utf8ByteSize > MAX_REVIEW_COMMENT_LEN then
    .error .InvalidComment
  else if now - sub.created_at < 7 * SECONDS_PER_DAY then .error .SubscriptionTooNew
  else if review_score_change rating ≥ 0 then
    match checked_add_i32 m.community_score (review_score_change rating) with
    | none => .error .Overflow
    | some v =>
      .ok ({ merchant_owner := m.owner, reviewer := reviewer,
             rating := rating, comment := comment, timestamp := now },
           { m with community_score := v, last_updated := now })
  else
    .ok ({ merchant_owner := m.owner, reviewer := reviewer,
           rating := rating, comment := comment, timestamp := now },
         { m with community_score :=
                    saturating_sub_i32 m.community_score
                      (-review_score_change rating),
                  last_updated := now })

/-- `suspend_merchant` handler (admin-gated by the account constraints). -/
def suspend_merchant (m : Merchant) (reason : String) (now : Int) :
    Except ErrorCode Merchant :=
  if reason.utf8ByteSize = 0 ∨ reason.utf8ByteSize > 256 then
    .error .InvalidSuspensionReason
  else .ok { m with verification_tier := .Suspended
                    premium_badge_active := false
                    last_updated := now }

/-- Optional business-name update step of `update_merchant_info`. -/
def update_info_name (m : Merchant) : Option String → Except ErrorCode Merchant
  | none => .ok m
  | some name =>
    if name.utf8ByteSize = 0 ∨ name.utf8ByteSize > MAX_BUSINESS_NAME_LEN then
      .error .InvalidBusinessName
    else .ok { m with business_name := name }

/-- Optional webhook-URL update step of `update_merchant_info`. -/
def update_info_url (m : Merchant) : Option String → Except ErrorCode Merchant
  | none => .ok m
  | some url =>
    if url.utf8ByteSize = 0 ∨ url.utf8ByteSize > MAX_WEBHOOK_URL_LEN then
      .error .InvalidWebhookUrl
    else .ok { m with webhook_url := url }

/-- Optional category update step of `update_merchant_info`. -/
def update_info_category (m : Merchant) :
    Option String → Except ErrorCode Merchant
  | none => .ok m
  | some cat =>
    if cat.utf8ByteSize = 0 ∨ cat.utf8ByteSize > MAX_CATEGORY_LEN then
      .error .InvalidCategory
    else .ok { m with category := cat }

/-- `update_merchant_info` handler. -/
def update_merchant_info (m : Merchant)
    (business_name webhook_url category : Option String) (now : Int) :
    Except ErrorCode Merchant :=
  match update_info_name m business_name with
  | .error e => .error e
  | .ok m1 =>
    match update_info_url m1 webhook_url with
    | .error e => .error e
    | .ok m2 =>
      match update_info_category m2 category with
      | .error e => .error e
      | .ok m3 => .ok { m3 with last_updated := now }

/-- Subscription states reachable through the program's instruction
handlers: created by `create_subscription`, then transformed by any
sequence of `execute_payment`, `pause_subscription`,
`resume_subscription`, `cancel_subscription` and `update_limits`
(`close_subscription` deallocates without writing fields). -/
inductive ReachableSub : Subscription → Prop where
  | created (p : PlatformState) (user merchant amount : Nat)
      (frequency_seconds : Int) (max_per_transaction lifetime_cap : Nat)
      (merchant_name : String) (now : Int) (p' : PlatformState)
      (s : Subscription) :
      create_subscription p user merchant amount frequency_seconds
        max_per_transaction lifetime_cap merchant_name now = .ok (p', s) →
      ReachableSub s
  | exec (p : PlatformState) (s : Subscription) (now : Int)
      (p' : PlatformState) (s' : Subscription) (t : List Transfer) :
      ReachableSub s → execute_payment p s now = .ok (p', s', t) →
      ReachableSub s'
  | pause (s s' : Subscription) :
      ReachableSub s → pause_subscription s = .ok s' → ReachableSub s'
  | resume (s : Subscription) (now : Int) (s' : Subscription) :
      ReachableSub s → resume_subscription s now = .ok s' → ReachableSub s'
  | cancel (p : PlatformState) (s : Subscription) (p' : PlatformState)
      (s' : Subscription) :
      ReachableSub s → cancel_subscription p s = .ok (p', s') →
      ReachableSub s'
  | limits (s : Subscription) (mx cap : Option Nat) (s' : Subscription) :
      ReachableSub s → update_limits s mx cap = .ok s' → ReachableSub s'

theorem checked_add_u64_eq_some {a b n : Nat} :
    checked_add_u64 a b = some n ↔ a + b < U64_MOD ∧ n = a + b := by
  unfold checked_add_u64
  split <;> simp_all <;> omega

theorem checked_add_u64_eq_none {a b : Nat} :
    checked_add_u64 a b = none ↔ U64_MOD ≤ a + b := by
  unfold checked_add_u64
  split <;> simp_all

theorem checked_add_u32_eq_some {a b n : Nat} :
    checked_add_u32 a b = some n ↔ a + b < U32_MOD ∧ n = a + b := by
  unfold checked_add_u32
  split <;> simp_all <;> omega

theorem checked_add_u32_eq_none {a b : Nat} :
    checked_add_u32 a b = none ↔ U32_MOD ≤ a + b := by
  unfold checked_add_u32
  split <;> simp_all

theorem checked_add_i32_eq_some {a b n : Int} :
    checked_add_i32 a b = some n ↔
      (I32_MIN ≤ a + b ∧ a + b ≤ I32_MAX) ∧ n = a + b := by
  unfold checked_add_i32
  split <;> simp_all <;> omega

theorem checked_add_i32_eq_none {a b : Int} :
    checked_add_i32 a b = none ↔ ¬(I32_MIN ≤ a + b ∧ a + b ≤ I32_MAX) := by
  unfold checked_add_i32
  split <;> simp_all

theorem reset_daily_volume_fields {p : PlatformState} {now : Int} :
    (reset_daily_volume p now).emergency_pause = p.emergency_pause ∧
    (reset_daily_volume p now).daily_volume_limit = p.daily_volume_limit ∧
    (reset_daily_volume p now).fee_basis_points = p.fee_basis_points ∧
    (reset_daily_volume p now).min_fee = p.min_fee ∧
    (reset_daily_volume p now).max_fee = p.max_fee ∧
    (reset_daily_volume p now).total_transactions = p.total_transactions ∧
    (reset_daily_volume p now).total_subscriptions = p.total_subscriptions := by
  unfold reset_daily_volume
  split <;> simp

/-- Inversion of a successful `create_subscription`. -/
theorem create_subscription_ok {p : PlatformState} {user merchant amount : Nat}
    {frequency_seconds : Int} {max_per_transaction lifetime_cap : Nat}
    {merchant_name : String} {now : Int} {p' : PlatformState}
    {s : Subscription}
    (h : create_subscription p user merchant amount frequency_seconds
      max_per_transaction lifetime_cap merchant_name now = .ok (p', s)) :
    s.total_paid = 0 ∧ s.amount = amount ∧ s.original_amount = amount ∧
    s.lifetime_cap = lifetime_cap ∧ amount ≤ lifetime_cap ∧
    p'.total_transactions = p.total_transactions ∧
    p'.total_subscriptions = p.total_subscriptions + 1 := by
  unfold create_subscription at h
  repeat' split at h
  all_goals cases h
  all_goals simp_all [checked_add_u64_eq_some]

/-- Inversion of an error-free run of `execute_payment_checks`: the
fields of the trace, and the checks the run passed. -/
theorem execute_payment_checks_ok {p : PlatformState} {s : Subscription}
    {now : Int} {pl : PlatformState} {sub : Subscription}
    {tr : List Transfer}
    (hE : execute_payment_checks p s now = ⟨pl, sub, tr, none⟩) :
    sub.total_paid = s.total_paid + s.amount ∧
    s.total_paid + s.amount ≤ s.lifetime_cap ∧
    sub.lifetime_cap = s.lifetime_cap ∧
    sub.amount = s.amount ∧
    sub.original_amount = s.original_amount ∧
    sub.is_active = s.is_active ∧
    sub.max_per_transaction = s.max_per_transaction ∧
    sub.created_at = s.created_at ∧
    pl.total_transactions = p.total_transactions + 1 ∧
    pl.total_subscriptions = p.total_subscriptions := by
  unfold execute_payment_checks at hE
  repeat' split at hE
  all_goals cases hE
  all_goals simp_all [checked_add_u64_eq_some, checked_add_u32_eq_some]

/-- A successful `execute_payment` is exactly an error-free raw trace. -/
theorem execute_payment_eq_ok {p : PlatformState} {s : Subscription}
    {now : Int} {p' : PlatformState} {s' : Subscription}
    {t : List Transfer} :
    execute_payment p s now = .ok (p', s', t) ↔
      execute_payment_raw p s now = ⟨p', s', t, none⟩ := by
  unfold execute_payment
  cases hE : execute_payment_raw p s now with
  | mk pl sub tr err =>
    cases err <;> simp_all

/-- Inversion of a successful `execute_payment`: how every field the
claims mention changes, and the checks that the successful run passed. -/
theorem execute_payment_ok {p : PlatformState} {s : Subscription} {now : Int}
    {p' : PlatformState} {s' : Subscription} {t : List Transfer}
    (h : execute_payment p s now = .ok (p', s', t)) :
    s'.total_paid = s.total_paid + s.amount ∧
    s.total_paid + s.amount ≤ s.lifetime_cap ∧
    s'.lifetime_cap = s.lifetime_cap ∧
    s'.amount = s.amount ∧
    s'.original_amount = s.original_amount ∧
    s'.is_active = s.is_active ∧
    s'.max_per_transaction = s.max_per_transaction ∧
    s'.created_at = s.created_at ∧
    p'.total_transactions = p.total_transactions + 1 ∧
    p'.total_subscriptions = p.total_subscriptions := by
  rw [execute_payment_eq_ok] at h
  unfold execute_payment_raw at h
  have hc := execute_payment_checks_ok h
  have hr := @reset_daily_volume_fields p now
  exact ⟨hc.1, hc.2.1, hc.2.2.1, hc.2.2.2.1, hc.2.2.2.2.1, hc.2.2.2.2.2.1,
    hc.2.2.2.2.2.2.1, hc.2.2.2.2.2.2.2.1,
    by rw [hc.2.2.2.2.2.2.2.2.1, hr.2.2.2.2.2.1],
    by rw [hc.2.2.2.2.2.2.2.2.2, hr.2.2.2.2.2.2]⟩

/-- Inversion of a successful `pause_subscription`. -/
theorem pause_subscription_ok {s s' : Subscription}
    (h : pause_subscription s = .ok s') : s' = { s with is_paused := true } := by
  unfold pause_subscription at h
  repeat' split at h
  all_goals cases h
  rfl

/-- Inversion of a successful `resume_subscription`. -/
theorem resume_subscription_ok {s : Subscription} {now : Int}
    {s' : Subscription} (h : resume_subscription s now = .ok s') :
    s' = { s with is_paused := false,
                  next_payment := now + s.frequency_seconds } := by
  unfold resume_subscription at h
  repeat' split at h
  all_goals cases h
  rfl

/-- Inversion of a successful `cancel_subscription`. -/
theorem cancel_subscription_ok {p : PlatformState} {s : Subscription}
    {p' : PlatformState} {s' : Subscription}
    (h : cancel_subscription p s = .ok (p', s')) :
    p' = { p with total_subscriptions := p.total_subscriptions - 1 } ∧
    s' = { s with is_active := false, is_paused := false } := by
  unfold cancel_subscription at h
  repeat' split at h
  all_goals cases h
  exact ⟨rfl, rfl⟩

/-- Inversion of a successful `update_limits`. -/
theorem update_limits_ok {s : Subscription}
    {mx cap : Option Nat} {s' : Subscription}
    (h : update_limits s mx cap = .ok s') :
    s'.total_paid = s.total_paid ∧ s'.amount = s.amount ∧
    s'.original_amount = s.original_amount ∧ s'.created_at = s.created_at ∧
    s'.is_active = s.is_active ∧
    (match cap with
     | none => s'.lifetime_cap = s.lifetime_cap
     | some v => s'.lifetime_cap = v ∧ s.total_paid ≤ v) := by
  unfold update_limits at h
  repeat' split at h
  all_goals cases h
  all_goals simp_all

/-- When the pre-cap checks pass but the lifetime cap would be exceeded,
`execute_payment_checks` stops with `ExceedsLifetimeCap` and no writes. -/
theorem execute_payment_checks_exceeds_cap {p : PlatformState}
    {s : Subscription} {now : Int}
    (hpause : p.emergency_pause = false) (hact : s.is_active = true)
    (hpaused : s.is_paused = false) (hdue : s.next_payment ≤ now)
    (hfit : s.total_paid + s.amount < U64_MOD)
    (hcap : s.lifetime_cap < s.total_paid + s.amount) :
    execute_payment_checks p s now = ⟨p, s, [], some .ExceedsLifetimeCap⟩ := by
  simp [execute_payment_checks, hpause, hact, hpaused, checked_add_u64,
    show ¬now < s.next_payment by omega, hfit, hcap]

-- Sample concrete states used by witnesses and counterexamples.

def samplePlatform : PlatformState :=
  { daily_volume_limit := 1000000000
    total_volume_24h := 0
    last_volume_reset := 0
    failed_tx_count := 0
    emergency_pause := false
    fee_basis_points := 100
    min_fee := 10000
    max_fee := 500000
    total_subscriptions := 1
    total_transactions := 0 }

def sampleSub : Subscription :=
  { user := 1
    merchant := 2
    amount := 1000000
    original_amount := 1000000
    frequency_seconds := 86400
    last_payment := 0
    next_payment := 86400
    total_paid := 0
    payment_count := 0
    is_active := true
    is_paused := false
    max_per_transaction := 1000000
    lifetime_cap := 30000000
    merchant_name := "Shop"
    created_at := 0 }

/-- A subscription one payment away from overflowing its lifetime cap. -/
def nearCapSub : Subscription := { sampleSub with total_paid := 29500000 }

/-- A platform in emergency pause whose volume window is stale. -/
def pausedStalePlatform : PlatformState :=
  { samplePlatform with emergency_pause := true, total_volume_24h := 777 }

/-- C1: for every subscription and every sequence of operations,
`total_paid` is non-decreasing and `total_paid ≤ lifetime_cap` in every
reachable state; `execute_payment` fails with `ExceedsLifetimeCap` when
`total_paid + amount` would exceed `lifetime_cap` (once the checks that
the source runs first — pause, lifecycle, due date — pass and the sum
fits in u64); and `update_limits` rejects any new `lifetime_cap` below
the current `total_paid`. -/
theorem C1_total_paid_monotone_and_capped :
    (∀ s, ReachableSub s → s.total_paid ≤ s.lifetime_cap) ∧
    (∀ p s now p' s' t, execute_payment p s now = .ok (p', s', t) →
      s.total_paid ≤ s'.total_paid) ∧
    (∀ s s', pause_subscription s = .ok s' → s'.total_paid = s.total_paid) ∧
    (∀ s now s', resume_subscription s now = .ok s' →
      s'.total_paid = s.total_paid) ∧
    (∀ p s p' s', cancel_subscription p s = .ok (p', s') →
      s'.total_paid = s.total_paid) ∧
    (∀ s mx cap s', update_limits s mx cap = .ok s' →
      s'.total_paid = s.total_paid) ∧
    (∀ p s now, p.emergency_pause = false → s.is_active = true →
      s.is_paused = false → s.next_payment ≤ now →
      s.total_paid + s.amount < U64_MOD →
      s.lifetime_cap < s.total_paid + s.amount →
      execute_payment p s now = .error .ExceedsLifetimeCap) ∧
    (∀ s mx cap s', update_limits s mx (some cap) = .ok s' →
      s.total_paid ≤ cap) ∧
    (∀ s cap, s.is_active = true → cap < s.total_paid →
      update_limits s none (some cap) = .error .ExceedsLifetimeCap) := by
  refine ⟨?_, ?_, ?_, ?_, ?_, ?_, ?_, ?_, ?_⟩
  · intro s hr
    induction hr with
    | created _ _ _ _ _ _ _ _ _ _ _ h =>
      have hc := create_subscription_ok h
      omega
    | exec _ _ _ _ _ _ _ h ih =>
      obtain ⟨h1, h2, h3, -⟩ := execute_payment_ok h
      omega
    | pause _ _ _ h ih =>
      rw [pause_subscription_ok h]
      exact ih
    | resume _ _ _ _ h ih =>
      rw [resume_subscription_ok h]
      exact ih
    | cancel _ _ _ _ _ h ih =>
      rw [(cancel_subscription_ok h).2]
      exact ih
    | limits s mx cap s' _ h ih =>
      have hc := update_limits_ok h
      cases cap with
      | none => simp_all
      | some v => simp_all
  · intro p s now p' s' t h
    obtain ⟨h1, -⟩ := execute_payment_ok h
    omega
  · intro s s' h
    rw [pause_subscription_ok h]
  · intro s now s' h
    rw [resume_subscription_ok h]
  · intro p s p' s' h
    rw [(cancel_subscription_ok h).2]
  · intro s mx cap s' h
    exact (update_limits_ok h).1
  · intro p s now hpause hact hpaused hdue hfit hcap
    have h1 : (reset_daily_volume p now).emergency_pause = false := by
      rw [reset_daily_volume_fields.1, hpause]
    unfold execute_payment execute_payment_raw
    rw [execute_payment_checks_exceeds_cap h1 hact hpaused hdue hfit hcap]
  · intro s mx cap s' h
    exact (update_limits_ok h).2.2.2.2.2.2
  · intro s cap hact hcap
    simp [update_limits, hact, show s.total_paid > cap from hcap]

/-- Witness for C1: a concrete payment that would push `total_paid` one
payment past the cap is rejected with `ExceedsLifetimeCap`. -/
theorem C1_witness :
    execute_payment samplePlatform nearCapSub 86400 =
      .error .ExceedsLifetimeCap :=
  C1_total_paid_monotone_and_capped.2.2.2.2.2.2.1 samplePlatform nearCapSub
    86400 (by decide) (by decide) (by decide) (by decide) (by decide)
    (by decide)

/-- C3: state-mutating operations are all-or-nothing.  The handlers are
sequences of in-memory account writes (`execute_payment_raw` records
them), and the host runtime reverts every write and transfer when a
handler returns an error, which `execute_payment` / the observable
`execute_payment_result` model.  In particular a failing
`execute_payment` that has already performed the 24-hour volume-window
reset leaves `total_volume_24h` and `last_volume_reset` untouched — even
though, as the second conjunct shows at a concrete input, the raw handler
body really had reset them before erroring. -/
theorem C3_errors_leave_state_unchanged :
    (∀ p s now e, execute_payment p s now = .error e →
      execute_payment_result p s now = (p, s, [])) ∧
    (∃ e, execute_payment pausedStalePlatform sampleSub 100000 = .error e ∧
      (execute_payment_raw pausedStalePlatform sampleSub
          100000).platform.last_volume_reset ≠
        pausedStalePlatform.last_volume_reset ∧
      (execute_payment_raw pausedStalePlatform sampleSub
          100000).platform.total_volume_24h ≠
        pausedStalePlatform.total_volume_24h ∧
      execute_payment_result pausedStalePlatform sampleSub 100000 =
        (pausedStalePlatform, sampleSub, [])) := by
  constructor
  · intro p s now e h
    simp [execute_payment_result, h]
  · exact ⟨.SystemPaused, by rfl, by decide, by decide, by rfl⟩

/-- Witness for C3: the first conjunct applied to a concrete failing
call. -/
theorem C3_witness :
    execute_payment_result pausedStalePlatform sampleSub 100000 =
      (pausedStalePlatform, sampleSub, []) :=
  C3_errors_leave_state_unchanged.1 pausedStalePlatform sampleSub 100000
    .SystemPaused (by rfl)

/-- `calculate_fee` never errors when `amount` fits in u64 and the basis
points respect the platform bound of 500: the widened product fits u128
and the narrowed quotient fits u64, so the clamped fee is returned. -/
theorem calculate_fee_ok {amount bp mn mx : Nat}
    (hamt : amount < U64_MOD) (hbp : bp ≤ 500) :
    calculate_fee amount bp mn mx =
      .ok (min (max (amount * bp / BASIS_POINTS_DIVISOR) mn) mx) := by
  have hamt' : amount ≤ 18446744073709551615 := by
    have h := hamt
    simp only [U64_MOD] at h
    omega
  have hb1 : amount * bp ≤ amount * 500 := Nat.mul_le_mul_left _ hbp
  have hb2 : amount * 500 ≤ 18446744073709551615 * 500 :=
    Nat.mul_le_mul_right _ hamt'
  have h1 : amount * bp < U128_MOD := by
    simp only [U128_MOD]
    omega
  have h2 : amount * bp / BASIS_POINTS_DIVISOR < U64_MOD :=
    Nat.div_lt_of_lt_mul (by simp only [U64_MOD, BASIS_POINTS_DIVISOR]; omega)
  simp [calculate_fee, not_le.mpr h1, not_le.mpr h2]

/-- If `calculate_fee` errors at all, the error is `Overflow`. -/
theorem calculate_fee_error {amount bp mn mx : Nat} {e : ErrorCode}
    (h : calculate_fee amount bp mn mx = .error e) : e = .Overflow := by
  unfold calculate_fee at h
  repeat' split at h
  all_goals cases h
  all_goals rfl

/-- C8: for every u64 `amount`, basis points in [1, 500] and
`min_fee ≤ max_fee`, `calculate_fee` succeeds (its defensive `Overflow`
branches are unreachable) and the fee lies in `[min_fee, max_fee]`. -/
theorem C8_fee_in_bounds :
    ∀ amount bp mn mx : Nat, amount < U64_MOD →
      MIN_FEE_BASIS_POINTS ≤ bp → bp ≤ MAX_FEE_BASIS_POINTS → mn ≤ mx →
      ∃ fee, calculate_fee amount bp mn mx = .ok fee ∧
        mn ≤ fee ∧ fee ≤ mx := by
  intro amount bp mn mx hamt hbp1 hbp2 hmn
  refine ⟨_, calculate_fee_ok hamt hbp2, ?_, ?_⟩
  · exact le_min (le_max_right _ _) hmn
  · exact min_le_right _ _

/-- Witness for C8 at Scenario A's parameters: 100 bp on 1 USDC gives a
fee of 10000, inside [10000, 500000]. -/
theorem C8_witness :
    ∃ fee, calculate_fee 1000000 100 10000 500000 = .ok fee ∧
      10000 ≤ fee ∧ fee ≤ 500000 :=
  C8_fee_in_bounds 1000000 100 10000 500000 (by decide) (by decide)
    (by decide) (by decide)

/-- C5 counterexample: `cancel_subscription` on a platform whose
subscription counter is 1 commits a platform state with counter 0 — the
counter decreased, so it is not monotonically increasing over every
operation. -/
theorem C5_counterexample :
    cancel_subscription samplePlatform sampleSub =
      .ok ({ samplePlatform with total_subscriptions := 0 },
           { sampleSub with is_active := false, is_paused := false }) ∧
    samplePlatform.total_subscriptions = 1 := ⟨by rfl, by rfl⟩

/-- C5 amended: `total_transactions` never decreases under any operation
of the billing program, and `total_subscriptions` never decreases under
any operation except `cancel_subscription`, which decrements it by one
(`saturating_sub`, so it floors at 0).  `pause_subscription`,
`resume_subscription`, `close_subscription` and `update_limits` never
write any platform field, so they cannot change either counter. -/
theorem C5_counters_monotone_except_cancel :
    (∀ p user merchant amount freq mx cap name now p' s,
      create_subscription p user merchant amount freq mx cap name now =
        .ok (p', s) →
      p'.total_transactions = p.total_transactions ∧
      p'.total_subscriptions = p.total_subscriptions + 1) ∧
    (∀ p s now p' s' t, execute_payment p s now = .ok (p', s', t) →
      p'.total_transactions = p.total_transactions + 1 ∧
      p'.total_subscriptions = p.total_subscriptions) ∧
    (∀ p s p' s', cancel_subscription p s = .ok (p', s') →
      p'.total_transactions = p.total_transactions ∧
      p'.total_subscriptions = p.total_subscriptions - 1) ∧
    (∀ p, (emergency_pause p).total_transactions = p.total_transactions ∧
      (emergency_pause p).total_subscriptions = p.total_subscriptions) ∧
    (∀ p now,
      (emergency_unpause p now).total_transactions = p.total_transactions ∧
      (emergency_unpause p now).total_subscriptions =
        p.total_subscriptions) := by
  refine ⟨?_, ?_, ?_, ?_, ?_⟩
  · intro p user merchant amount freq mx cap name now p' s h
    have hc := create_subscription_ok h
    exact ⟨hc.2.2.2.2.2.1, hc.2.2.2.2.2.2⟩
  · intro p s now p' s' t h
    have hc := execute_payment_ok h
    exact ⟨hc.2.2.2.2.2.2.2.2.1, hc.2.2.2.2.2.2.2.2.2⟩
  · intro p s p' s' h
    rw [(cancel_subscription_ok h).1]
    exact ⟨rfl, rfl⟩
  · intro p
    exact ⟨rfl, rfl⟩
  · intro p now
    exact ⟨rfl, rfl⟩

/-- Witness for C5's amended statement: the concrete cancellation of the
counterexample indeed moves the counter from 1 to `1 - 1`. -/
theorem C5_witness :
    ({ samplePlatform with
        total_subscriptions := 0 } : PlatformState).total_transactions =
      samplePlatform.total_transactions ∧
    ({ samplePlatform with
        total_subscriptions := 0 } : PlatformState).total_subscriptions =
      samplePlatform.total_subscriptions - 1 :=
  C5_counters_monotone_except_cancel.2.2.1 samplePlatform sampleSub
    { samplePlatform with total_subscriptions := 0 }
    { sampleSub with is_active := false, is_paused := false } (by rfl)

/-- If `execute_payment_checks` reports an error, that error is never
`PriceVarianceExceeded` when `amount = original_amount`: the variance is
`abs_diff amount original = 0`, within every band. -/
theorem execute_payment_checks_no_variance {p : PlatformState}
    {s : Subscription} {now : Int} (h : s.amount = s.original_amount) :
    (execute_payment_checks p s now).error ≠ some .PriceVarianceExceeded := by
  unfold execute_payment_checks
  repeat' split
  all_goals simp_all [abs_diff_u64]
  all_goals rename_i heq
  all_goals cases calculate_fee_error heq
  all_goals decide

/-- C9: every subscription is created with `amount = original_amount` and
no operation ever writes `amount`, so the equality holds in every
reachable state; consequently `execute_payment`'s variance check compares
`amount` with itself and the `PriceVarianceExceeded` branch can never be
taken. -/
theorem C9_variance_branch_unreachable :
    (∀ s, ReachableSub s → s.amount = s.original_amount) ∧
    (∀ p s now, s.amount = s.original_amount →
      execute_payment p s now ≠ .error .PriceVarianceExceeded) := by
  constructor
  · intro s hr
    induction hr with
    | created _ _ _ _ _ _ _ _ _ _ _ h =>
      have hc := create_subscription_ok h
      omega
    | exec _ _ _ _ _ _ _ h ih =>
      obtain ⟨-, -, -, h4, h5, -⟩ := execute_payment_ok h
      rw [h4, h5]
      exact ih
    | pause _ _ _ h ih =>
      rw [pause_subscription_ok h]
      exact ih
    | resume _ _ _ _ h ih =>
      rw [resume_subscription_ok h]
      exact ih
    | cancel _ _ _ _ _ h ih =>
      rw [(cancel_subscription_ok h).2]
      exact ih
    | limits _ _ _ _ _ h ih =>
      have hc := update_limits_ok h
      rw [hc.2.1, hc.2.2.1]
      exact ih
  · intro p s now h hcontra
    have hne :=
      @execute_payment_checks_no_variance (reset_daily_volume p now) s now h
    unfold execute_payment execute_payment_raw at hcontra
    split at hcontra
    · rename_i e heq
      cases hcontra
      exact hne heq
    · cases hcontra

/-- Witness for C9: `sampleSub` is reachable (it is exactly the output of
a concrete `create_subscription`), and a concrete execution on it cannot
fail with `PriceVarianceExceeded`. -/
theorem C9_witness :
    sampleSub.amount = sampleSub.original_amount ∧
    execute_payment samplePlatform sampleSub 86400 ≠
      .error .PriceVarianceExceeded :=
  ⟨C9_variance_branch_unreachable.1 sampleSub
    (ReachableSub.created samplePlatform 1 2 1000000 86400 1000000
      30000000 "Shop" 0
      { samplePlatform with total_subscriptions := 2 } sampleSub (by rfl)),
   C9_variance_branch_unreachable.2 samplePlatform sampleSub 86400
    (by rfl)⟩

/-- When every check before the fee step passes but the clamped fee
exceeds the charge amount, `execute_payment_checks` stops with
`InsufficientAmount` before recording any transfer. -/
theorem execute_payment_checks_insufficient {p : PlatformState}
    {s : Subscription} {now : Int}
    (hpause : p.emergency_pause = false) (hact : s.is_active = true)
    (hpaused : s.is_paused = false) (hdue : s.next_payment ≤ now)
    (hfit : s.total_paid + s.amount < U64_MOD)
    (hcap : s.total_paid + s.amount ≤ s.lifetime_cap)
    (hvfit : p.total_volume_24h + s.amount < U64_MOD)
    (hvol : p.total_volume_24h + s.amount ≤ p.daily_volume_limit)
    (hvar : abs_diff_u64 s.amount s.original_amount ≤ s.original_amount / 10)
    (hbp : p.fee_basis_points ≤ 500) (hmm : p.min_fee ≤ p.max_fee)
    (hlt : s.amount < p.min_fee) :
    execute_payment_checks p s now = ⟨p, s, [], some .InsufficientAmount⟩ := by
  have hamt : s.amount < U64_MOD := by omega
  have hfee := @calculate_fee_ok s.amount p.fee_basis_points p.min_fee
    p.max_fee hamt hbp
  have hFgt : s.amount <
      min (max (s.amount * p.fee_basis_points / BASIS_POINTS_DIVISOR)
        p.min_fee) p.max_fee :=
    lt_of_lt_of_le hlt (le_min (le_max_right _ _) hmm)
  simp [execute_payment_checks, hpause, hact, hpaused, checked_add_u64,
    show ¬now < s.next_payment by omega, hfit,
    show ¬s.total_paid + s.amount > s.lifetime_cap by omega,
    hvfit,
    show ¬p.total_volume_24h + s.amount > p.daily_volume_limit by omega,
    show ¬(s.payment_count > 0 ∧
      abs_diff_u64 s.amount s.original_amount > s.original_amount / 10) from
      fun hh => absurd hh.2 (by omega),
    hfee, hFgt]

/-- C10: even with every spec-listed precondition satisfied,
`execute_payment` fails with `InsufficientAmount` whenever the clamped
fee exceeds `subscription.amount` — in particular whenever
`amount < platform.min_fee` with `min_fee ≤ max_fee` — and no transfer to
the merchant (or anyone) is ever issued, as the raw handler trace shows. -/
theorem C10_insufficient_amount_below_min_fee :
    ∀ p s now,
      p.emergency_pause = false → s.is_active = true →
      s.is_paused = false → s.next_payment ≤ now →
      s.total_paid + s.amount < U64_MOD →
      s.total_paid + s.amount ≤ s.lifetime_cap →
      (reset_daily_volume p now).total_volume_24h + s.amount < U64_MOD →
      (reset_daily_volume p now).total_volume_24h + s.amount ≤
        p.daily_volume_limit →
      abs_diff_u64 s.amount s.original_amount ≤ s.original_amount / 10 →
      p.fee_basis_points ≤ 500 → p.min_fee ≤ p.max_fee →
      s.amount < p.min_fee →
      execute_payment p s now = .error .InsufficientAmount ∧
      (execute_payment_raw p s now).transfers = [] := by
  intro p s now hpause hact hpaused hdue hfit hcap hvfit hvol hvar hbp hmm hlt
  have hr := @reset_daily_volume_fields p now
  have hchecks := @execute_payment_checks_insufficient
    (reset_daily_volume p now) s now
    (by rw [hr.1]; exact hpause) hact hpaused hdue hfit hcap hvfit
    (by rw [hr.2.1]; exact hvol) hvar
    (by rw [hr.2.2.1]; exact hbp)
    (by rw [hr.2.2.2.1, hr.2.2.2.2.1]; exact hmm)
    (by rw [hr.2.2.2.1]; exact hlt)
  constructor
  · unfold execute_payment execute_payment_raw
    rw [hchecks]
  · unfold execute_payment_raw
    rw [hchecks]

/-- A subscription whose per-cycle charge (5000) is below the platform's
minimum fee (10000). -/
def tinyAmountSub : Subscription :=
  { sampleSub with amount := 5000, original_amount := 5000,
                   max_per_transaction := 5000 }

/-- Witness for C10: the concrete 5000-unit charge under a 10000 minimum
fee is rejected with `InsufficientAmount` and produces no transfer. -/
theorem C10_witness :
    execute_payment samplePlatform tinyAmountSub 86400 =
      .error .InsufficientAmount ∧
    (execute_payment_raw samplePlatform tinyAmountSub 86400).transfers =
      [] :=
  C10_insufficient_amount_below_min_fee samplePlatform tinyAmountSub 86400
    (by decide) (by decide) (by decide) (by decide) (by decide) (by decide)
    (by decide) (by decide) (by decide) (by decide) (by decide) (by decide)

/-- C2: the claim says every successful `execute_payment` reports its
outcome to the merchant's trust record through the registry's
`record_transaction`.  The source's `ExecutePayment` accounts context
contains no merchant-registry account at all and the handler performs no
CPI into the registry program, so a successful payment — exhibited here
at a concrete input — begins and ends with the billing-side state
`(platform, subscription, transfers)`; no merchant trust record is read
or written, and `total_transactions`, `total_volume` and
`community_score` of the merchant stay untouched. -/
theorem C2_payment_makes_no_report :
    execute_payment samplePlatform sampleSub 86400 =
      .ok ({ samplePlatform with
               last_volume_reset := 86400
               total_volume_24h := 1000000
               total_transactions := 1 },
           { sampleSub with
               last_payment := 86400
               next_payment := 172800
               total_paid := 1000000
               payment_count := 1 },
           [⟨true, 990000⟩, ⟨false, 10000⟩]) := by rfl

/-- The badge-expiry step touches only `premium_badge_active`. -/
theorem record_transaction_badge_fields {m : Merchant} {now : Int} :
    (record_transaction_badge m now).verification_tier =
      m.verification_tier ∧
    (record_transaction_badge m now).community_score = m.community_score ∧
    (record_transaction_badge m now).total_transactions =
      m.total_transactions ∧
    (record_transaction_badge m now).failed_transactions =
      m.failed_transactions := by
  unfold record_transaction_badge
  split <;> simp

/-- The counter/score update step never changes the tier or the badge. -/
theorem record_transaction_update_ok {m0 : Merchant} {amount : Nat}
    {success : Bool} {m1 : Merchant}
    (h : record_transaction_update m0 amount success = .ok m1) :
    m1.verification_tier = m0.verification_tier ∧
    m1.premium_badge_active = m0.premium_badge_active := by
  unfold record_transaction_update at h
  repeat' split at h
  all_goals cases h
  all_goals simp

/-- Decomposition of a successful `record_transaction` into its update
step followed by the promotion and suspension checks. -/
theorem record_transaction_ok_shape {m : Merchant} {amount : Nat}
    {success : Bool} {now : Int} {m' : Merchant}
    (h : record_transaction m amount success now = .ok m') :
    ∃ m1, record_transaction_update (record_transaction_badge m now)
        amount success = .ok m1 ∧
      m' = suspend_check (promote_check { m1 with last_updated := now }) := by
  unfold record_transaction at h
  split at h
  · cases h
  · rename_i m1 heq
    cases h
    exact ⟨m1, heq, rfl⟩

/-- A merchant leaving the suspension check with a score below −100 is
Suspended with its badge cleared. -/
theorem suspend_check_spec (x : Merchant) :
    (suspend_check x).community_score < -100 →
    (suspend_check x).verification_tier = .Suspended ∧
    (suspend_check x).premium_badge_active = false := by
  unfold suspend_check
  split
  · intro _
    exact ⟨rfl, rfl⟩
  · rename_i hcond
    intro hs
    exact absurd hs hcond

/-- For a merchant entering the promotion/suspension pair as `Verified`,
the final tier is `Community` exactly when the final counters satisfy
the promotion condition (the two checks never change the counters, and a
promoted merchant has score ≥ 1000, so the suspension check cannot undo
the promotion). -/
theorem promote_suspend_tier_iff {x : Merchant}
    (hx : x.verification_tier = .Verified) :
    (suspend_check (promote_check x)).verification_tier = .Community ↔
      ((suspend_check (promote_check x)).total_transactions ≥ 100 ∧
       (suspend_check (promote_check x)).community_score ≥ 1000 ∧
       (suspend_check (promote_check x)).failed_transactions < 5) := by
  unfold promote_check suspend_check
  by_cases hC : x.verification_tier = .Verified ∧ x.total_transactions ≥ 100 ∧
      x.community_score ≥ 1000 ∧ x.failed_transactions < 5
  · rw [if_pos hC]
    obtain ⟨-, h1, h2, h3⟩ := hC
    rw [if_neg (by simp; omega)]
    simp_all
  · rw [if_neg hC]
    split
    · rename_i hs
      simp only [Merchant.mk.injEq]
      constructor
      · intro hcontra
        cases hcontra
      · rintro ⟨-, h2, -⟩
        simp at h2
        omega
    · simp [hx]
      intro h1 h2
      by_contra hlt
      exact hC ⟨hx, h1, h2, by omega⟩

/-- After any merchant state transition of `record_transaction`, the
tier can be `Community` only if it already was, or the merchant was
`Verified` going in (the promotion path). -/
theorem record_transaction_community_origin {m : Merchant} {amount : Nat}
    {success : Bool} {now : Int} {m' : Merchant}
    (h : record_transaction m amount success now = .ok m')
    (hc : m'.verification_tier = .Community) :
    m.verification_tier = .Verified ∨
    m.verification_tier = .Community := by
  obtain ⟨m1, hupd, rfl⟩ := record_transaction_ok_shape h
  have htier : m1.verification_tier = m.verification_tier := by
    rw [(record_transaction_update_ok hupd).1,
      record_transaction_badge_fields.1]
  unfold suspend_check promote_check at hc
  by_cases hC : ({ m1 with last_updated := now } : Merchant).verification_tier = .Verified ∧
      ({ m1 with last_updated := now } : Merchant).total_transactions ≥ 100 ∧
      ({ m1 with last_updated := now } : Merchant).community_score ≥ 1000 ∧
      ({ m1 with last_updated := now } : Merchant).failed_transactions < 5
  · left
    have := hC.1
    simp at this
    rw [← htier]
    exact this
  · rw [if_neg hC] at hc
    split at hc
    · simp at hc
    · simp at hc
      right
      rw [← htier]
      exact hc

theorem update_info_name_tier {m : Merchant} {o : Option String}
    {m1 : Merchant} (h : update_info_name m o = .ok m1) :
    m1.verification_tier = m.verification_tier := by
  unfold update_info_name at h
  repeat' split at h
  all_goals cases h
  all_goals rfl

theorem update_info_url_tier {m : Merchant} {o : Option String}
    {m1 : Merchant} (h : update_info_url m o = .ok m1) :
    m1.verification_tier = m.verification_tier := by
  unfold update_info_url at h
  repeat' split at h
  all_goals cases h
  all_goals rfl

theorem update_info_category_tier {m : Merchant} {o : Option String}
    {m1 : Merchant} (h : update_info_category m o = .ok m1) :
    m1.verification_tier = m.verification_tier := by
  unfold update_info_category at h
  repeat' split at h
  all_goals cases h
  all_goals rfl

/-- A `Verified` merchant one successful report away from the automatic
Community promotion (Scenario C of the spec). -/
def c6Merchant : Merchant :=
  { owner := 3
    business_name := "Mart"
    webhook_url := "https://mart.example"
    category := "retail"
    verification_tier := .Verified
    community_score := 990
    total_transactions := 99
    total_volume := 0
    failed_transactions := 0
    premium_badge_active := false
    premium_badge_expires := 0
    created_at := 0
    last_updated := 0 }

/-- The state `c6Merchant` reaches after its 100th successful report. -/
def c6Promoted : Merchant :=
  { c6Merchant with verification_tier := .Community
                    community_score := 1000
                    total_transactions := 100
                    total_volume := 5 }

/-- C6: `verification_tier = Community` is reachable only through the
automatic promotion inside transaction reporting: `approve_merchant`
with `Community` always fails; for a `Verified` merchant a successful
`record_transaction` ends in `Community` exactly when the post-update
counters satisfy `total_transactions ≥ 100 ∧ community_score ≥ 1000 ∧
failed_transactions < 5`; and no other operation can introduce the
`Community` tier. -/
theorem C6_community_tier_only_automatic :
    (∀ r m now, approve_merchant r m .Community now =
      .error .CannotManuallySetCommunityTier) ∧
    (∀ m amount success now m', m.verification_tier = .Verified →
      record_transaction m amount success now = .ok m' →
      (m'.verification_tier = .Community ↔
        (m'.total_transactions ≥ 100 ∧ m'.community_score ≥ 1000 ∧
         m'.failed_transactions < 5))) ∧
    (∀ m amount success now m',
      record_transaction m amount success now = .ok m' →
      m'.verification_tier = .Community →
      m.verification_tier = .Verified ∨
      m.verification_tier = .Community) ∧
    (∀ r m tier now r' m', approve_merchant r m tier now = .ok (r', m') →
      m'.verification_tier ≠ .Community) ∧
    (∀ m reason now m', suspend_merchant m reason now = .ok m' →
      m'.verification_tier = .Suspended) ∧
    (∀ r m now m', subscribe_premium_badge r m now = .ok m' →
      m'.verification_tier = m.verification_tier) ∧
    (∀ ex sub m rv rating comment now rev m',
      submit_review ex sub m rv rating comment now = .ok (rev, m') →
      m'.verification_tier = m.verification_tier) ∧
    (∀ m bn wu cat now m', update_merchant_info m bn wu cat now = .ok m' →
      m'.verification_tier = m.verification_tier) ∧
    (∀ r owner bn wu cat now r' m,
      apply_for_verification r owner bn wu cat now = .ok (r', m) →
      m.verification_tier = .Unverified) := by
  refine ⟨?_, ?_, ?_, ?_, ?_, ?_, ?_, ?_, ?_⟩
  · intro r m now
    simp [approve_merchant]
  · intro m amount success now m' htier h
    obtain ⟨m1, hupd, rfl⟩ := record_transaction_ok_shape h
    apply promote_suspend_tier_iff
    show ({ m1 with last_updated := now } : Merchant).verification_tier =
      .Verified
    simp only []
    rw [show ({ m1 with last_updated := now } : Merchant).verification_tier =
        m1.verification_tier from rfl,
      (record_transaction_update_ok hupd).1,
      record_transaction_badge_fields.1]
    exact htier
  · intro m amount success now m' h hc
    exact record_transaction_community_origin h hc
  · intro r m tier now r' m' h
    unfold approve_merchant at h
    repeat' split at h
    all_goals cases h
    all_goals simp_all
  · intro m reason now m' h
    unfold suspend_merchant at h
    repeat' split at h
    all_goals cases h
    rfl
  · intro r m now m' h
    unfold subscribe_premium_badge at h
    repeat' split at h
    all_goals cases h
    rfl
  · intro ex sub m rv rating comment now rev m' h
    unfold submit_review at h
    repeat' split at h
    all_goals cases h
    all_goals rfl
  · intro m bn wu cat now m' h
    unfold update_merchant_info at h
    repeat' split at h
    all_goals cases h
    rw [show ∀ (x : Merchant) (n : Int),
        ({ x with last_updated := n } : Merchant).verification_tier =
          x.verification_tier from fun _ _ => rfl]
    exact (update_info_category_tier (by assumption)).trans
      ((update_info_url_tier (by assumption)).trans
        (update_info_name_tier (by assumption)))
  · intro r owner bn wu cat now r' m h
    unfold apply_for_verification at h
    repeat' split at h
    all_goals cases h
    rfl

/-- Witness for C6: the concrete 100th successful report promotes
`c6Merchant` to `Community`, and the promotion condition on the
post-state indeed holds. -/
theorem C6_witness :
    c6Promoted.verification_tier = .Community ↔
      (c6Promoted.total_transactions ≥ 100 ∧
       c6Promoted.community_score ≥ 1000 ∧
       c6Promoted.failed_transactions < 5) :=
  C6_community_tier_only_automatic.2.1 c6Merchant 5 true 0 c6Promoted
    (by rfl) (by rfl)

/-- A `Verified` merchant with an active premium badge whose score is
close to the suspension threshold. -/
def c4Merchant : Merchant :=
  { owner := 2
    business_name := "Biz"
    webhook_url := "https://biz.example"
    category := "shop"
    verification_tier := .Verified
    community_score := -95
    total_transactions := 10
    total_volume := 5000000
    failed_transactions := 0
    premium_badge_active := true
    premium_badge_expires := 100000000
    created_at := 0
    last_updated := 0 }

/-- A subscription meeting every review-gate requirement. -/
def reviewerSub : Subscription :=
  { sampleSub with payment_count := 3, total_paid := 3000000 }

/-- C4 counterexample: a 1-star review drops `c4Merchant`'s score from
−95 to −125 (< −100), yet `submit_review` applies no promotion or
suspension rule — the committed merchant stays `Verified` with its
premium badge still active, contradicting the claim that every score
mutation is followed by the auto-suspension check. -/
theorem C4_counterexample :
    submit_review false reviewerSub c4Merchant 7 1 "bad" 604800 =
      .ok ({ merchant_owner := 2, reviewer := 7, rating := 1,
             comment := "bad", timestamp := 604800 },
           { c4Merchant with community_score := -125,
                             last_updated := 604800 }) ∧
    ({ c4Merchant with community_score := -125,
                       last_updated := 604800 } : Merchant).community_score <
      -100 ∧
    ({ c4Merchant with community_score := -125,
                       last_updated := 604800 } :
        Merchant).verification_tier ≠ .Suspended ∧
    ({ c4Merchant with community_score := -125,
                       last_updated := 604800 } :
        Merchant).premium_badge_active = true :=
  ⟨by rfl, by decide, by decide, by rfl⟩

/-- C4 amended: only `record_transaction` applies the auto-promotion and
auto-suspension rules; after every score mutation performed by
`record_transaction`, `community_score < -100` implies the merchant is
`Suspended` with `premium_badge_active = false`, while `submit_review`
performs no such check (see the counterexample). -/
theorem C4_record_transaction_enforces_suspension :
    ∀ m amount success now m',
      record_transaction m amount success now = .ok m' →
      m'.community_score < -100 →
      m'.verification_tier = .Suspended ∧
      m'.premium_badge_active = false := by
  intro m amount success now m' h hs
  obtain ⟨m1, hupd, rfl⟩ := record_transaction_ok_shape h
  exact suspend_check_spec _ hs

/-- The merchant of the C4 scenario with score −90, about to receive a
failed-transaction report. -/
def c4FailMerchant : Merchant := { c4Merchant with community_score := -90 }

/-- State after the failed report: score −115 crosses the threshold, so
the report suspends the merchant and clears the badge. -/
def c4SuspendedMerchant : Merchant :=
  { c4Merchant with community_score := -115
                    failed_transactions := 1
                    verification_tier := .Suspended
                    premium_badge_active := false }

/-- Witness for C4's amended statement at the concrete failed report. -/
theorem C4_witness :
    c4SuspendedMerchant.verification_tier = .Suspended ∧
    c4SuspendedMerchant.premium_badge_active = false :=
  C4_record_transaction_enforces_suspension c4FailMerchant 5 false 0
    c4SuspendedMerchant (by rfl) (by decide)

/-- C7: `submit_review` rejects every review whose cited subscription is
inactive, has fewer than 3 payments, has paid less than 1,000,000, or is
younger than 7 days, regardless of the other inputs; and a second review
for the same (merchant, reviewer) pair — whose PDA already exists, so
Anchor's `init` fails — is rejected outright, never overwritten. -/
theorem C7_review_gate :
    (∀ ex sub m rv rating comment now,
      (sub.is_active = false ∨ sub.payment_count < 3 ∨
        sub.total_paid < 1000000 ∨
        now - sub.created_at < 7 * SECONDS_PER_DAY) →
      ∃ e, submit_review ex sub m rv rating comment now = .error e) ∧
    (∀ sub m rv rating comment now,
      submit_review true sub m rv rating comment now =
        .error .AccountAlreadyInUse) := by
  constructor
  · intro ex sub m rv rating comment now hdisj
    unfold submit_review
    repeat' split
    all_goals try exact ⟨_, rfl⟩
    exfalso
    rcases hdisj with h | h | h | h
    all_goals simp_all
  · intro sub m rv rating comment now
    rfl

/-- A cancelled subscription cited by a would-be reviewer. -/
def inactiveSub : Subscription := { sampleSub with is_active := false }

/-- Witness for C7: the inactive subscription is rejected, whatever the
rating and comment. -/
theorem C7_witness :
    ∃ e, submit_review false inactiveSub c4Merchant 7 5 "fine" 604800 =
      .error e :=
  C7_review_gate.1 false inactiveSub c4Merchant 7 5 "fine" 604800
    (Or.inl (by rfl))

end Lutrii
